import Mathlib

/-!
Verification of the Kiga-ers swipe/pagination application.

The definitions below are a shallow embedding of the TypeScript source:

* `Paper`, `addLikedPaper`            — apps/web/src/contexts/LikedPapersContext.tsx
* `GestureState`, `handleTouchStart`, `handleTouchMove`, `handleTouchEnd`,
  `resetCardInteraction`, `flyOutState` — the swipe gesture handlers of the
  final HomePage variant (apps/web/src/app/page.tsx, the PaperCard-based
  version)
* `updatePapers`, `completeFetch`, `fetchMore`, `startNewSearch`
                                      — `fetchPapers` of the same HomePage
* `commitSwipe`, `goToNextPaperIndex` — `handleLike`/`handleDislike`/`goToNextPaper`
* `buildArxivQuery`                   — the GET handler of
  apps/web/src/app/api/papers/route.ts (latest variant, which forwards the
  client-supplied `start` and `max_results` parameters)
* `parseEntry`, `papersOfEntries`, `extractArxivId`
                                      — the arXiv entry → PaperSummary mapping
  of the same GET handler
* `summarizePOST`, `generateAiSummaryRequest`
                                      — apps/web/src/app/api/summarize/route.ts
  and `generateAiSummary` of the HomePage

Machine floats (touch coordinates) are modelled as rationals; JavaScript
truthiness of strings is modelled explicitly (`""` is falsy); `null`/
`undefined` are modelled with `Option`.
-/

/-- A paper record, as in `LikedPapersContext.tsx`.  The optional TS fields
`aiSummary?`, `isEndOfFeedCard?` and `endOfFeedMessage?` are modelled with
`Option`/`Bool` (an absent boolean field and `false` are both falsy in the
source, so a single `Bool` is faithful to every use site). -/
structure Paper where
  id : String
  title : String
  summary : String
  authors : List String
  published : String
  updated : String
  pdfLink : String
  categories : List String
  aiSummary : Option String := none
  isEndOfFeedCard : Bool := false
  endOfFeedMessage : Option String := none
deriving DecidableEq, Repr

/-- Constant `SWIPE_THRESHOLD_PAGE = 70` of the HomePage. -/
def SWIPE_THRESHOLD_PAGE : ℚ := 70

/-- Constant `SWIPE_MAX_ROTATION_PAGE = 12` of the HomePage. -/
def SWIPE_MAX_ROTATION_PAGE : ℚ := 12

/-- Constant `SWIPE_TRANSLATE_X_SCALE_PAGE = 1.1` of the HomePage. -/
def SWIPE_TRANSLATE_X_SCALE_PAGE : ℚ := 11 / 10

/-- Constant `VISIBLE_CARDS_IN_STACK_PAGE = 2` of the HomePage. -/
def VISIBLE_CARDS_IN_STACK_PAGE : Nat := 2

/-- Constant `MAX_RESULTS_PER_FETCH_PAGE = 10` of the HomePage (the requested
page size). -/
def MAX_RESULTS_PER_FETCH_PAGE : Nat := 10

/-- Constant `END_OF_FEED_CARD_ID_PAGE` of the HomePage. -/
def END_OF_FEED_CARD_ID_PAGE : String := "___END_OF_FEED___"

/-- The whitespace class of the JavaScript regular expression `\s` and of
`String.prototype.trim` (restricted to the characters that can occur here). -/
def isJsWs (c : Char) : Bool :=
  c = ' ' || c = '\t' || c = '\n' || c = '\r' ||
  c = Char.ofNat 11 || c = Char.ofNat 12 || c = Char.ofNat 160

/-- JavaScript `String.prototype.trim` on a character list: strip leading and
trailing whitespace. -/
def jsTrimList (l : List Char) : List Char :=
  ((l.dropWhile isJsWs).reverse.dropWhile isJsWs).reverse

/-- JavaScript `String.prototype.trim`. -/
def jsTrim (s : String) : String :=
  String.mk (jsTrimList s.toList)

/-- The two fly-out directions, `'left' | 'right'` in the source. -/
inductive SwipeDirection
  | left
  | right
deriving DecidableEq, Repr

/-- CSS-module class `styles.feedbackPinkLike` (an opaque class-name string). -/
def feedbackPinkLike : String := "feedbackPinkLike"

/-- CSS-module class `styles.feedbackLimeDislike` (an opaque class-name string). -/
def feedbackLimeDislike : String := "feedbackLimeDislike"

/-- The gesture-relevant mutable state of the HomePage: the `interactionState`
record plus the three touch refs (`touchStartX`, `touchCurrentX`,
`touchStartY`). -/
structure GestureState where
  isSwiping : Bool
  cardTransform : String
  feedbackColor : String
  flyingDirection : Option SwipeDirection
  touchStartX : Option ℚ
  touchCurrentX : Option ℚ
  touchStartY : Option ℚ
deriving DecidableEq, Repr

/-- `resetCardInteraction` of the HomePage: clears the interaction state and
nulls the three touch refs. -/
def resetCardInteraction : GestureState :=
  { isSwiping := false
    cardTransform := ""
    feedbackColor := ""
    flyingDirection := none
    touchStartX := none
    touchCurrentX := none
    touchStartY := none }

/-- `handleTouchStart` of the HomePage: ignored while a card is flying out,
otherwise starts a swipe and records the touch position. -/
def handleTouchStart (touchX touchY : ℚ) (s : GestureState) : GestureState :=
  if s.flyingDirection.isSome then s
  else
    { s with
      isSwiping := true
      cardTransform := ""
      feedbackColor := ""
      touchStartX := some touchX
      touchCurrentX := some touchX
      touchStartY := some touchY }

/-- `handleTouchMove` of the HomePage.  `cardWidth` stands for
`topCardRef.current.offsetWidth`.  A gesture whose vertical displacement
dominates (`diffY > 1.8 * |diffX|` and `diffY > 15`) is reset; otherwise a
live transform and a feedback colour are computed. -/
def handleTouchMove (currentX currentY cardWidth : ℚ) (s : GestureState) : GestureState :=
  match s.touchStartX, s.touchStartY with
  | some startX, some startY =>
    if s.flyingDirection.isSome ∨ s.isSwiping = false then s
    else
      let s1 := { s with touchCurrentX := some currentX }
      let diffX := currentX - startX
      let diffY := |currentY - startY|
      if diffY > |diffX| * (9 / 5) ∧ diffY > 15 then
        resetCardInteraction
      else
        let rotation := (diffX / cardWidth) * SWIPE_MAX_ROTATION_PAGE
        let translateX := diffX * SWIPE_TRANSLATE_X_SCALE_PAGE
        { s1 with
          cardTransform :=
            "translateX(" ++ toString translateX ++ "px) rotate(" ++ toString rotation ++ "deg)"
          feedbackColor :=
            if |diffX| > SWIPE_THRESHOLD_PAGE / 2 then
              (if diffX > 0 then feedbackPinkLike else feedbackLimeDislike)
            else "" }
  | _, _ => s

/-- The interaction-state update performed by `handleLike` / `handleDislike`
when a swipe commits: the card starts flying out in `dir`, the swipe flag is
cleared and the matching feedback colour is set (the touch refs are kept). -/
def flyOutState (dir : SwipeDirection) (s : GestureState) : GestureState :=
  { s with
    isSwiping := false
    flyingDirection := some dir
    feedbackColor :=
      match dir with
      | .right => feedbackPinkLike
      | .left => feedbackLimeDislike
    cardTransform := "" }

/-- `handleTouchEnd` of the HomePage.  Returns the new gesture state together
with the committed direction (`none` when the release does not commit).
`.right` corresponds to `handleLike` (accept), `.left` to `handleDislike`
(reject). -/
def handleTouchEnd (papers : List Paper) (currentPaperIndex : Nat) (s : GestureState) :
    GestureState × Option SwipeDirection :=
  if s.isSwiping = false ∧ s.flyingDirection = none then (s, none)
  else if s.flyingDirection.isSome then (s, none)
  else
    match s.touchStartX, s.touchCurrentX with
    | some startX, some currentX =>
      let diffX := currentX - startX
      match papers[currentPaperIndex]? with
      | none => (resetCardInteraction, none)
      | some _ =>
        if |diffX| > SWIPE_THRESHOLD_PAGE then
          if diffX > 0 then (flyOutState .right s, some .right)
          else (flyOutState .left s, some .left)
        else (resetCardInteraction, none)
    | _, _ => (resetCardInteraction, none)

/-- A sample concrete paper used by the witnesses. -/
def samplePaper (pid : String) : Paper :=
  { id := pid
    title := "A Paper"
    summary := "An abstract."
    authors := ["A. Author"]
    published := "2024-01-01"
    updated := "2024-01-02"
    pdfLink := "http://arxiv.org/pdf/2401.00001.pdf"
    categories := ["cs.AI"] }

/-- The synthetic "end of results" placeholder card pushed by `fetchPapers`
when the returned page signals exhaustion (its message depends on the current
search term; an empty term is falsy in the source). -/
def endOfFeedCard (currentSearchTerm : String) : Paper :=
  let endMsg :=
    if currentSearchTerm ≠ "" then
      "「" ++ currentSearchTerm ++ "」の検索結果は以上です。"
    else "全ての論文を見終わりました。"
  { id := END_OF_FEED_CARD_ID_PAGE
    title := "お知らせ"
    summary := endMsg
    authors := []
    published := ""
    updated := ""
    pdfLink := ""
    categories := []
    aiSummary := none
    isEndOfFeedCard := true
    endOfFeedMessage := some endMsg }

/-- The `setPapers` updater inside `fetchPapers` of the HomePage: strip any
previous end-of-feed card, replace everything on a new search or append only
the papers whose id is not already present, and push the placeholder card when
the page was short (`moreAvail = false`) and the list is non-empty and has no
placeholder yet. -/
def updatePapers (isInitialOrNewSearch : Bool) (moreAvail : Bool) (currentSearchTerm : String)
    (prevPapers data : List Paper) : List Paper :=
  let currentRealPapers := prevPapers.filter (fun p => !p.isEndOfFeedCard)
  let updatedPapersArray :=
    if isInitialOrNewSearch then data
    else
      let existingIds := currentRealPapers.map (fun p => p.id)
      let newUniquePapers := data.filter (fun p => !existingIds.contains p.id)
      currentRealPapers ++ newUniquePapers
  if !moreAvail ∧ updatedPapersArray.length > 0 ∧
      !updatedPapersArray.any (fun p => p.id == END_OF_FEED_CARD_ID_PAGE) then
    updatedPapersArray ++ [endOfFeedCard currentSearchTerm]
  else updatedPapersArray

/-- The papers of a list that are not the end-of-feed placeholder
(`papers.filter(p => !p.isEndOfFeedCard)` in the source). -/
def realPapers (papers : List Paper) : List Paper :=
  papers.filter (fun p => !p.isEndOfFeedCard)

/-- The fetch/pagination state of the HomePage: the result list, the read
cursor, the in-flight flag (`isLoading`), the exhaustion flag
(`hasMorePapers`), the throttle ref (`canFetchMoreRef`) and the active search
term. -/
structure FetchState where
  papers : List Paper
  currentPaperIndex : Nat
  isLoading : Bool
  hasMorePapers : Bool
  canFetchMore : Bool
  currentSearchTerm : String
deriving DecidableEq, Repr

/-- Completion of a fetch in `fetchPapers`: the page is merged via
`updatePapers`, `hasMorePapers` becomes `data.length === MAX_RESULTS_PER_FETCH_PAGE`,
loading ends and (after the 300 ms timeout, collapsed here) further fetches
are re-enabled. -/
def completeFetch (isInitialOrNewSearch : Bool) (data : List Paper) (s : FetchState) :
    FetchState :=
  let moreAvail := data.length == MAX_RESULTS_PER_FETCH_PAGE
  { s with
    papers := updatePapers isInitialOrNewSearch moreAvail s.currentSearchTerm s.papers data
    hasMorePapers := moreAvail
    isLoading := false
    canFetchMore := true }

/-- An additional-page ("more") fetch attempt of `fetchPapers`
(`isInitialOrNewSearch = false`), collapsed with its completion on response
`data`.  The Boolean result records whether a fetch was actually issued: the
guards at the top of `fetchPapers` drop the request when a fetch is already in
flight, when `hasMorePapers` is false, or when the throttle ref blocks it. -/
def fetchMore (data : List Paper) (s : FetchState) : FetchState × Bool :=
  if s.isLoading then (s, false)
  else if !s.hasMorePapers then (s, false)
  else if !s.canFetchMore then (s, false)
  else
    (completeFetch false data { s with isLoading := true, canFetchMore := false }, true)

/-- Start of a new search (`handleSearchSubmit` followed by the
`isInitialOrNewSearch = true` prologue of `fetchPapers`): the result list is
discarded, the cursor resets to 0 and `hasMorePapers` is cleared back to
`true`. -/
def startNewSearch (term : String) (s : FetchState) : FetchState :=
  { s with
    papers := []
    currentPaperIndex := 0
    isLoading := true
    hasMorePapers := true
    canFetchMore := false
    currentSearchTerm := jsTrim term }

/-- `addLikedPaper` of `LikedPapersContext.tsx`: append the paper unless an
entry with the same id is already present. -/
def addLikedPaper (prevPapers : List Paper) (paper : Paper) : List Paper :=
  if (prevPapers.find? (fun p => p.id == paper.id)).isSome then prevPapers
  else prevPapers ++ [paper]

/-- The state touched by a committed swipe action: the result list, the read
cursor and the liked list. -/
structure AppState where
  papers : List Paper
  currentPaperIndex : Nat
  likedPapers : List Paper
deriving DecidableEq, Repr

/-- `goToNextPaper` of the HomePage, on the cursor:
`setCurrentPaperIndex(prevIndex => Math.min(prevIndex + 1, papers.length))`. -/
def goToNextPaperIndex (papers : List Paper) (idx : Nat) : Nat :=
  min (idx + 1) papers.length

/-- One committed swipe action (drag past the threshold or an explicit
accept/reject button).  A commit requires a current paper
(`papers[currentPaperIndex]`, checked by `handleTouchEnd` and by the buttons
being rendered on an existing card); accept (`.right`, `handleLike`) adds the
paper to the liked list, reject (`.left`, `handleDislike`) does not, and both
then advance the cursor via `goToNextPaper`. -/
def commitSwipe (dir : SwipeDirection) (s : AppState) : AppState :=
  match s.papers[s.currentPaperIndex]? with
  | none => s
  | some paper =>
    { s with
      likedPapers :=
        match dir with
        | .right => addLikedPaper s.likedPapers paper
        | .left => s.likedPapers
      currentPaperIndex := goToNextPaperIndex s.papers s.currentPaperIndex }

/-- A sequence of committed swipe actions, applied in order. -/
def commitSeq (dirs : List SwipeDirection) (s : AppState) : AppState :=
  dirs.foldl (fun st d => commitSwipe d st) s

/-- Constant `DEFAULT_CATEGORY` of the papers API route. -/
def DEFAULT_CATEGORY : String := "cat:cs.AI"

/-- Constant `DEFAULT_MAX_RESULTS` of the papers API route. -/
def DEFAULT_MAX_RESULTS : String := "10"

/-- The query parameters of a GET request to `/api/papers`
(`searchParams.get` returns `null` for an absent parameter, modelled as
`none`). -/
structure PapersRequest where
  query : Option String
  start : Option String
  max_results : Option String
deriving DecidableEq, Repr

/-- JavaScript `value || default` on a nullable string: `null` and the empty
string both fall back to the default. -/
def orDefault (v : Option String) (d : String) : String :=
  match v with
  | none => d
  | some s => if s = "" then d else s

/-- The upstream query-string parameters the GET handler of `/api/papers`
sends to the arXiv API (`URLSearchParams` construction). -/
structure ArxivQuery where
  search_query : String
  sortBy : String
  sortOrder : String
  start : String
  max_results : String
deriving DecidableEq, Repr

/-- JavaScript truthiness test `query && query.trim() !== ''` of the GET
handler, negated: the query is blank when it is absent, empty or
whitespace-only. -/
def isBlankQuery : Option String → Bool
  | none => true
  | some q => q = "" || jsTrim q = ""

/-- The upstream arXiv query built by the GET handler of `/api/papers`
(latest variant): a blank client query falls back to the default category with
recency ordering, a non-blank query is trimmed and switches the ordering to
relevance; the client-supplied `start` and `max_results` are forwarded with
defaults `'0'` and `DEFAULT_MAX_RESULTS`. -/
def buildArxivQuery (req : PapersRequest) : ArxivQuery :=
  let start := orDefault req.start "0"
  let max_results := orDefault req.max_results DEFAULT_MAX_RESULTS
  if isBlankQuery req.query then
    { search_query := DEFAULT_CATEGORY
      sortBy := "submittedDate"
      sortOrder := "descending"
      start := start
      max_results := max_results }
  else
    { search_query := jsTrim ((req.query).getD "")
      sortBy := "relevance"
      sortOrder := "descending"
      start := start
      max_results := max_results }

/-- An attribute record of an `<link>` element of an arXiv feed entry. -/
structure ArxivLinkAttr where
  href : Option String
  rel : Option String
  title : Option String
  linkType : Option String
deriving DecidableEq, Repr

/-- An `<author>` element of an arXiv feed entry. -/
structure ArxivAuthor where
  name : Option String
deriving DecidableEq, Repr

/-- A `<category>` element of an arXiv feed entry. -/
structure ArxivCategoryAttr where
  term : Option String
  scheme : Option String
deriving DecidableEq, Repr

/-- An `<entry>` element of the parsed arXiv feed (all fields optional, as in
the route's `ArxivEntry` interface). -/
structure ArxivEntry where
  id : Option String
  updated : Option String
  published : Option String
  title : Option String
  summary : Option String
  author : Option (List ArxivAuthor)
  link : Option (List ArxivLinkAttr)
  category : Option (List ArxivCategoryAttr)
deriving DecidableEq, Repr

/-- The paper record returned to the client by the papers route
(`PaperSummary` interface). -/
structure PaperSummary where
  id : String
  title : String
  summary : String
  authors : List String
  published : String
  updated : String
  pdfLink : String
  categories : List String
deriving DecidableEq, Repr

/-- Match a literal pattern at the head of a character list, returning the
remainder on success. -/
def matchLead : List Char → List Char → Option (List Char)
  | [], rest => some rest
  | _ :: _, [] => none
  | p :: ps, c :: cs => if p = c then matchLead ps cs else none

/-- First-match semantics of the regular expression `\/abs\/([^v]+)` used by
the route: scan for an occurrence of `/abs/` followed by at least one
character other than `v`, and capture the maximal run of non-`v` characters;
on failure at one position the scan continues at the next. -/
def absCapture : List Char → Option (List Char)
  | [] => none
  | c :: cs =>
    match matchLead ("/abs/".toList) (c :: cs) with
    | some rest =>
      let cap := rest.takeWhile (fun ch => ch ≠ 'v')
      if cap.isEmpty then absCapture cs else some cap
    | none => absCapture cs

/-- `idUrl.match(/\/abs\/([^v]+)/)?.[1]` of the route: the captured arXiv
identifier, if any. -/
def extractArxivId (idUrl : String) : Option String :=
  (absCapture idUrl.toList).map (fun cs => String.mk cs)

/-- JavaScript `String.prototype.includes` on character lists. -/
def containsSub (needle : List Char) : List Char → Bool
  | [] => needle.isEmpty
  | c :: cs => if (matchLead needle (c :: cs)).isSome then true else containsSub needle cs

/-- JavaScript `String.prototype.replace` with a string pattern: replace the
first occurrence only. -/
def replaceFirstAux (needle repl : List Char) : List Char → List Char
  | [] => []
  | c :: cs =>
    match matchLead needle (c :: cs) with
    | some rest => repl ++ rest
    | none => c :: replaceFirstAux needle repl cs

/-- Worker for `collapseWs`: the flag records whether the scan is inside a
whitespace run that has already been replaced by a single space, so the
remaining characters of that run are swallowed. -/
def collapseWsAux : Bool → List Char → List Char
  | _, [] => []
  | inRun, c :: cs =>
    if isJsWs c then
      if inRun then collapseWsAux true cs
      else
        match cs with
        | c2 :: _ =>
          if isJsWs c2 then ' ' :: collapseWsAux true cs
          else c :: collapseWsAux false cs
        | [] => [c]
    else c :: collapseWsAux false cs

/-- JavaScript `replace(/\s\s+/g, ' ')`: every maximal run of two or more
whitespace characters becomes a single space; an isolated whitespace character
is kept as is. -/
def collapseWs (l : List Char) : List Char :=
  collapseWsAux false l

/-- The `@_title === 'pdf'` link lookup of the route:
`links.find(l => l['@_title'] === 'pdf' && typeof l['@_href'] === 'string')?.['@_href'] ?? ''`. -/
def findPdfHref (links : List ArxivLinkAttr) : String :=
  match links.find? (fun l => l.title == some "pdf" && l.href.isSome) with
  | some l => l.href.getD ""
  | none => ""

/-- One arXiv `<entry>` mapped to a `PaperSummary` by the GET handler of
`/api/papers`.  The entry is dropped (`none`) exactly when no arXiv identifier
can be extracted from its `id` URL; otherwise a pdf link is looked up among
the entry links with an `/abs/`→`/pdf/` URL fallback, and authors, categories,
title, abstract and dates are normalised with defaults. -/
def parseEntry (entryItem : ArxivEntry) : Option PaperSummary :=
  let idUrl := entryItem.id
  let arxivId : Option String :=
    match idUrl with
    | some u => if u = "" then none else extractArxivId u
    | none => none
  match arxivId with
  | none => none
  | some aid =>
    let pdfLink0 : String :=
      match entryItem.link with
      | some ls => findPdfHref ls
      | none => ""
    let pdfLink : String :=
      if pdfLink0 == "" &&
          (match idUrl with
           | some u => containsSub ("/abs/".toList) u.toList
           | none => false) then
        let potential :=
          String.mk (replaceFirstAux ("/abs/".toList) ("/pdf/".toList) ((idUrl.getD "").toList))
            ++ ".pdf"
        if potential.startsWith "http://" ∨ potential.startsWith "https://" then potential
        else pdfLink0
      else pdfLink0
    let authors :=
      ((entryItem.author.getD []).filterMap (fun a => a.name.map jsTrim)).filter
        (fun n => n ≠ "")
    let categories :=
      ((entryItem.category.getD []).filterMap (fun c => c.term)).filter (fun t => t ≠ "")
    let title :=
      match entryItem.title with
      | some t => String.mk (collapseWs (jsTrim t).toList)
      | none => "タイトルなし"
    let summary :=
      match entryItem.summary with
      | some t => String.mk (collapseWs (jsTrim t).toList)
      | none => "要約なし"
    some
      { id := aid
        title := title
        summary := summary
        authors := authors
        published := entryItem.published.getD ""
        updated := entryItem.updated.getD ""
        pdfLink := pdfLink
        categories := categories }

/-- The page of papers the route returns for the parsed feed entries
(`entries.map(...).filter(p => p !== null)`; a `null` array slot is also
dropped by the `if (!entryItem) return null` guard). -/
def papersOfEntries (entries : List (Option ArxivEntry)) : List PaperSummary :=
  entries.filterMap (fun e => e.bind parseEntry)

/-- The JSON round trip of a returned `PaperSummary` into the client's `Paper`
shape: the fields absent from the response (`aiSummary`, `isEndOfFeedCard`,
`endOfFeedMessage`) come back undefined. -/
def paperOfSummary (p : PaperSummary) : Paper :=
  { id := p.id
    title := p.title
    summary := p.summary
    authors := p.authors
    published := p.published
    updated := p.updated
    pdfLink := p.pdfLink
    categories := p.categories
    aiSummary := none
    isEndOfFeedCard := false
    endOfFeedMessage := none }

/-- The body sent by the client to `/api/summarize`. -/
structure SummarizeRequest where
  pdfUrl : String
  paperTitle : String
deriving DecidableEq, Repr

/-- `generateAiSummary` of the HomePage, up to the network call: the request
that is issued, or `none` when the function returns early (another
summarization in progress, empty pdf link, or the paper already has a
summary — an empty `aiSummary` string is falsy and does not block). -/
def generateAiSummaryRequest (isSummarizing : Option String) (papers : List Paper)
    (paperId : String) (pdfUrl : String) (paperTitle : String) : Option SummarizeRequest :=
  if isSummarizing.isSome || pdfUrl == "" then none
  else
    match papers.find? (fun p => p.id == paperId) with
    | some paperToUpdate =>
      if (paperToUpdate.aiSummary.getD "") ≠ "" then none
      else some { pdfUrl := pdfUrl, paperTitle := paperTitle }
    | none => some { pdfUrl := pdfUrl, paperTitle := paperTitle }

/-- What the POST handler of `/api/summarize` does before any network
interaction: either an early JSON error response, or it goes on to download
the PDF and forward it to the generation API. -/
inductive SummarizeOutcome
  | earlyResponse (status : Nat) (error : String)
  | forwardToGeneration (pdfUrl : String) (paperTitle : String)
deriving DecidableEq, Repr

/-- The request-validation prefix of the POST handler of `/api/summarize`:
missing API key → 500; missing, non-string or empty `pdfUrl`
(`!pdfUrl || typeof pdfUrl !== 'string'`) → 400 with a descriptive message;
otherwise the handler proceeds to download and forward the PDF (a non-string
`paperTitle` falls back to a default display title). -/
def summarizePOST (apiKeySet : Bool) (pdfUrl : Option String)
    (paperTitle : Option String) : SummarizeOutcome :=
  if !apiKeySet then
    .earlyResponse 500 "サーバー設定エラー: APIキーが設定されていません。"
  else
    match pdfUrl with
    | none => .earlyResponse 400 "要約する論文のPDF URLが必要です。"
    | some u =>
      if u = "" then .earlyResponse 400 "要約する論文のPDF URLが必要です。"
      else .forwardToGeneration u (paperTitle.getD "提示された論文")

/-- A concrete mid-drag gesture state used by the witnesses: the touch began
at the origin and the finger is currently at `currentX`. -/
def sampleGesture (currentX : ℚ) : GestureState :=
  { isSwiping := true
    cardTransform := ""
    feedbackColor := ""
    flyingDirection := none
    touchStartX := some 0
    touchCurrentX := some currentX
    touchStartY := some 0 }

/-- A concrete idle fetch state over the given result list, used by the
witnesses. -/
def sampleFetchState (papers : List Paper) : FetchState :=
  { papers := papers
    currentPaperIndex := 0
    isLoading := false
    hasMorePapers := true
    canFetchMore := true
    currentSearchTerm := "" }

/-- A concrete feed entry whose id URL has no `/abs/<id>` segment, so the
route cannot extract an arXiv identifier from it. -/
def badArxivEntry : ArxivEntry :=
  { id := some "http://export.arxiv.org/api/errors"
    updated := none
    published := none
    title := none
    summary := none
    author := none
    link := none
    category := none }

/-- A concrete well-formed feed entry. -/
def goodArxivEntry : ArxivEntry :=
  { id := some "http://arxiv.org/abs/2401.00001"
    updated := some "2024-01-02"
    published := some "2024-01-01"
    title := some "A Paper"
    summary := some "An abstract."
    author := some [{ name := some "A. Author" }]
    link := some [{ href := some "http://arxiv.org/pdf/2401.00001", rel := none,
                    title := some "pdf", linkType := none }]
    category := some [{ term := some "cs.AI", scheme := none }] }

/-- A full upstream page (10 entries) one entry of which has no extractable
arXiv identifier. -/
def sampleEntries : List (Option ArxivEntry) :=
  List.replicate 9 (some goodArxivEntry) ++ [some badArxivEntry]

/-! Helper lemmas (shared). -/

/-- A touch-move on the neutral state is a no-op (the touch refs are null). -/
theorem handleTouchMove_reset_eq (x y w : ℚ) :
    handleTouchMove x y w resetCardInteraction = resetCardInteraction := rfl

/-- A release on the neutral state neither commits nor changes the state. -/
theorem handleTouchEnd_reset_eq (papers : List Paper) (idx : Nat) :
    handleTouchEnd papers idx resetCardInteraction = (resetCardInteraction, none) := by
  simp [handleTouchEnd, resetCardInteraction]

/-- Any sequence of touch-moves keeps the neutral state neutral. -/
theorem foldl_handleTouchMove_reset (moves : List (ℚ × ℚ × ℚ)) :
    moves.foldl (fun st m => handleTouchMove m.1 m.2.1 m.2.2 st) resetCardInteraction =
      resetCardInteraction := by
  induction moves with
  | nil => rfl
  | cons m ms ih => rw [List.foldl_cons, handleTouchMove_reset_eq]; exact ih

/-- C1: for a gesture released with final horizontal displacement
`dx = currentX - startX` over an existing top card (threshold 70), the release
commits accept (fly-out right) iff `dx > 70`, commits reject (fly-out left)
iff `dx < -70`, and otherwise — including `|dx|` exactly 70 — resets the
gesture to neutral with no committed direction. -/
theorem swipe_commit_threshold (papers : List Paper) (idx : Nat) (s : GestureState)
    (startX currentX : ℚ)
    (hswipe : s.isSwiping = true) (hfly : s.flyingDirection = none)
    (hsx : s.touchStartX = some startX) (hcx : s.touchCurrentX = some currentX)
    (hpaper : idx < papers.length) :
    ((handleTouchEnd papers idx s).2 = some SwipeDirection.right ↔ currentX - startX > 70) ∧
    ((handleTouchEnd papers idx s).2 = some SwipeDirection.left ↔ currentX - startX < -70) ∧
    (|currentX - startX| ≤ 70 → handleTouchEnd papers idx s = (resetCardInteraction, none)) := by
  have hget := List.getElem?_eq_getElem hpaper
  simp only [handleTouchEnd, hswipe, hfly, hsx, hcx, hget, Option.isSome_none,
    Bool.true_eq_false, false_and, if_false, Bool.false_eq_true, SWIPE_THRESHOLD_PAGE,
    reduceIte]
  by_cases h1 : |currentX - startX| > 70
  · rw [if_pos h1]
    by_cases h2 : currentX - startX > 0
    · have h70 : currentX - startX > 70 := by rwa [abs_of_pos h2] at h1
      rw [if_pos h2]
      refine ⟨⟨fun _ => h70, fun _ => rfl⟩, ⟨fun h => (by cases h), fun h => (by linarith)⟩,
        fun hle => absurd h1 (not_lt.mpr hle)⟩
    · have habs : |currentX - startX| = -(currentX - startX) :=
        abs_of_nonpos (le_of_not_lt h2)
      have h70 : currentX - startX < -70 := by rw [habs] at h1; linarith
      rw [if_neg h2]
      refine ⟨⟨fun h => (by cases h), fun h => (by linarith)⟩, ⟨fun _ => h70, fun _ => rfl⟩,
        fun hle => absurd h1 (not_lt.mpr hle)⟩
  · have hle := not_lt.mp h1
    rw [if_neg h1]
    refine ⟨⟨fun h => (by cases h), fun h => absurd (lt_of_lt_of_le h (le_abs_self _)) h1⟩,
      ⟨fun h => (by cases h), fun h => ?_⟩, fun _ => rfl⟩
    have h70 : (70 : ℚ) < |currentX - startX| :=
      lt_of_lt_of_le (by linarith : (70 : ℚ) < -(currentX - startX)) (neg_le_abs _)
    exact absurd h70 h1

/-- Witness for `swipe_commit_threshold` at a concrete drag of `dx = 80`. -/
theorem swipe_commit_threshold_witness :
    ((handleTouchEnd [samplePaper "a"] 0 (sampleGesture 80)).2 = some SwipeDirection.right ↔
      (80 : ℚ) - 0 > 70) ∧
    ((handleTouchEnd [samplePaper "a"] 0 (sampleGesture 80)).2 = some SwipeDirection.left ↔
      (80 : ℚ) - 0 < -70) ∧
    (|(80 : ℚ) - 0| ≤ 70 →
      handleTouchEnd [samplePaper "a"] 0 (sampleGesture 80) = (resetCardInteraction, none)) :=
  swipe_commit_threshold [samplePaper "a"] 0 (sampleGesture 80) 0 80 rfl rfl rfl rfl
    (by simp)

/-- C6: a drag whose vertical displacement dominates (`|dy| > 1.8 · |dx|` and
`|dy| > 15`) is immediately reset to neutral by `handleTouchMove`; from the
neutral state any further touch-moves are no-ops and the release cannot commit
any direction, whatever the final horizontal displacement was. -/
theorem vertical_scroll_never_commits (s : GestureState)
    (currentX currentY cardWidth startX startY : ℚ)
    (hswipe : s.isSwiping = true) (hfly : s.flyingDirection = none)
    (hsx : s.touchStartX = some startX) (hsy : s.touchStartY = some startY)
    (hvert : |currentY - startY| > |currentX - startX| * (9 / 5) ∧ |currentY - startY| > 15) :
    handleTouchMove currentX currentY cardWidth s = resetCardInteraction ∧
    (∀ papers idx, handleTouchEnd papers idx resetCardInteraction = (resetCardInteraction, none)) ∧
    (∀ moves : List (ℚ × ℚ × ℚ),
      moves.foldl (fun st m => handleTouchMove m.1 m.2.1 m.2.2 st) resetCardInteraction =
        resetCardInteraction) := by
  refine ⟨?_, fun papers idx => handleTouchEnd_reset_eq papers idx,
    fun moves => foldl_handleTouchMove_reset moves⟩
  simp only [handleTouchMove, hsx, hsy, hfly, hswipe, Option.isSome_none,
    Bool.false_eq_true, Bool.true_eq_false, or_self, if_false, reduceIte]
  rw [if_pos hvert]

/-- Witness for `vertical_scroll_never_commits`: a vertical drag of
`dy = 100` with `dx = 0`. -/
theorem vertical_scroll_never_commits_witness :
    handleTouchMove 0 100 300 (sampleGesture 0) = resetCardInteraction ∧
    (∀ papers idx, handleTouchEnd papers idx resetCardInteraction = (resetCardInteraction, none)) ∧
    (∀ moves : List (ℚ × ℚ × ℚ),
      moves.foldl (fun st m => handleTouchMove m.1 m.2.1 m.2.2 st) resetCardInteraction =
        resetCardInteraction) :=
  vertical_scroll_never_commits (sampleGesture 0) 0 100 300 0 0 rfl rfl rfl rfl (by norm_num)

/-- A committed swipe action never changes the result list. -/
theorem commitSwipe_papers_eq (dir : SwipeDirection) (s : AppState) :
    (commitSwipe dir s).papers = s.papers := by
  unfold commitSwipe
  cases h : s.papers[s.currentPaperIndex]? with
  | none => rfl
  | some p => cases dir <;> rfl

/-- A committed swipe action never moves the cursor backwards. -/
theorem commitSwipe_idx_mono (dir : SwipeDirection) (s : AppState) :
    s.currentPaperIndex ≤ (commitSwipe dir s).currentPaperIndex := by
  unfold commitSwipe
  cases h : s.papers[s.currentPaperIndex]? with
  | none => exact le_refl _
  | some p =>
    have hlt : s.currentPaperIndex < s.papers.length := by
      by_contra hge
      rw [List.getElem?_eq_none (le_of_not_lt hge)] at h
      cases h
    cases dir <;>
      exact le_min (Nat.le_succ _) (le_of_lt hlt)

/-- A committed swipe action keeps the cursor within the result list bounds. -/
theorem commitSwipe_idx_le (dir : SwipeDirection) (s : AppState)
    (h : s.currentPaperIndex ≤ s.papers.length) :
    (commitSwipe dir s).currentPaperIndex ≤ (commitSwipe dir s).papers.length := by
  rw [commitSwipe_papers_eq]
  unfold commitSwipe
  cases hg : s.papers[s.currentPaperIndex]? with
  | none => exact h
  | some p => cases dir <;> exact min_le_right _ _

/-- C2: with `currentPaperIndex : Nat` (so `0 ≤ cursor` holds intrinsically)
and `cursor ≤ length` initially, every committed swipe action (accept or
reject, by drag or by the explicit buttons) leaves the cursor non-decreasing
and, when a current paper exists — the precondition of any commit — advances
it by exactly one; any sequence of committed actions keeps
`cursor ≤ length` and never decreases the cursor. -/
theorem cursor_monotone_and_bounded (s : AppState)
    (hinv : s.currentPaperIndex ≤ s.papers.length) :
    (∀ dir, s.currentPaperIndex ≤ (commitSwipe dir s).currentPaperIndex) ∧
    (∀ dir, s.currentPaperIndex < s.papers.length →
      (commitSwipe dir s).currentPaperIndex = s.currentPaperIndex + 1) ∧
    (∀ dirs, s.currentPaperIndex ≤ (commitSeq dirs s).currentPaperIndex ∧
      (commitSeq dirs s).currentPaperIndex ≤ (commitSeq dirs s).papers.length) := by
  refine ⟨fun dir => commitSwipe_idx_mono dir s, fun dir hlt => ?_, fun dirs => ?_⟩
  · have hget := List.getElem?_eq_getElem hlt
    unfold commitSwipe goToNextPaperIndex
    rw [hget]
    cases dir <;> simp <;> omega
  · induction dirs generalizing s with
    | nil => exact ⟨le_refl _, hinv⟩
    | cons d ds ih =>
      have hstep := commitSwipe_idx_mono d s
      have hinv1 : (commitSwipe d s).currentPaperIndex ≤ (commitSwipe d s).papers.length :=
        commitSwipe_idx_le d s hinv
      have hrest := ih (commitSwipe d s) hinv1
      exact ⟨le_trans hstep hrest.1, hrest.2⟩

/-- Witness for `cursor_monotone_and_bounded` over a one-paper result list. -/
theorem cursor_monotone_and_bounded_witness :
    (commitSwipe SwipeDirection.right
        { papers := [samplePaper "a"], currentPaperIndex := 0,
          likedPapers := [] }).currentPaperIndex = 0 + 1 :=
  (cursor_monotone_and_bounded
      { papers := [samplePaper "a"], currentPaperIndex := 0, likedPapers := [] }
      (by simp)).2.1 SwipeDirection.right (by simp)

/-- An additional-page fetch attempt on a state whose exhausted flag is set
(`hasMorePapers = false`) issues nothing and changes nothing. -/
theorem fetchMore_of_no_more (d : List Paper) (s : FetchState)
    (h : s.hasMorePapers = false) : fetchMore d s = (s, false) := by
  unfold fetchMore
  by_cases hl : s.isLoading <;> simp [hl, h]

/-- No sequence of additional-page fetch attempts changes an exhausted state. -/
theorem foldl_fetchMore_of_no_more (s : FetchState) (h : s.hasMorePapers = false)
    (ds : List (List Paper)) :
    ds.foldl (fun st d => (fetchMore d st).1) s = s := by
  induction ds with
  | nil => rfl
  | cons d ds ih => rw [List.foldl_cons, fetchMore_of_no_more d s h]; exact ih

/-- C4: when a completed fetch returns a page strictly shorter than the
requested page size (10), the controller enters the exhausted state
(`hasMorePapers = false`); from there every further "more" fetch attempt for
the same query is dropped without being issued (whatever pages it would
return), and only a new search resets `hasMorePapers` to `true`. -/
theorem short_page_exhausts_pagination (s : FetchState) (data : List Paper)
    (hshort : data.length < MAX_RESULTS_PER_FETCH_PAGE) :
    ((completeFetch false data s).hasMorePapers = false) ∧
    (∀ d, fetchMore d (completeFetch false data s) = (completeFetch false data s, false)) ∧
    (∀ ds : List (List Paper),
      ds.foldl (fun st d => (fetchMore d st).1) (completeFetch false data s) =
        completeFetch false data s) ∧
    (∀ term, (startNewSearch term (completeFetch false data s)).hasMorePapers = true) := by
  have h10 : (data.length == MAX_RESULTS_PER_FETCH_PAGE) = false := by
    simp only [beq_eq_false_iff_ne]
    omega
  have hflag : (completeFetch false data s).hasMorePapers = false := by
    simp [completeFetch, h10]
  exact ⟨hflag, fun d => fetchMore_of_no_more d _ hflag,
    fun ds => foldl_fetchMore_of_no_more _ hflag ds, fun term => rfl⟩

/-- Witness for `short_page_exhausts_pagination`: an empty page on an idle
state. -/
theorem short_page_exhausts_pagination_witness :
    ((completeFetch false [] (sampleFetchState [])).hasMorePapers = false) ∧
    (∀ d, fetchMore d (completeFetch false [] (sampleFetchState [])) =
      (completeFetch false [] (sampleFetchState []), false)) ∧
    (∀ ds : List (List Paper),
      ds.foldl (fun st d => (fetchMore d st).1) (completeFetch false [] (sampleFetchState [])) =
        completeFetch false [] (sampleFetchState [])) ∧
    (∀ term, (startNewSearch term
      (completeFetch false [] (sampleFetchState []))).hasMorePapers = true) :=
  short_page_exhausts_pagination (sampleFetchState []) [] (by decide)

/-- C5: the GET handler of `/api/papers` forwards the client-supplied offset:
whenever the request carries a non-empty `start` parameter `o`, the upstream
arXiv query's `start` parameter equals `o` (so successive page requests with
increasing offsets address distinct adjacent result windows). -/
theorem get_forwards_start_offset (q m : Option String) (o : String) (ho : o ≠ "") :
    (buildArxivQuery { query := q, start := some o, max_results := m }).start = o := by
  unfold buildArxivQuery orDefault
  by_cases hb : isBlankQuery q <;> simp [hb, ho]

/-- Witness for `get_forwards_start_offset` at offset 10. -/
theorem get_forwards_start_offset_witness :
    (buildArxivQuery { query := none, start := some "10", max_results := none }).start = "10" :=
  get_forwards_start_offset none none "10" (by decide)

/-- C8: on a blank (absent, empty or whitespace-only) client query the GET
handler queries the default category `cat:cs.AI` sorted by `submittedDate`
(recency); on a non-blank query it queries the trimmed query text sorted by
`relevance`. -/
theorem arxiv_query_default_and_relevance (req : PapersRequest) :
    (isBlankQuery req.query = true →
      (buildArxivQuery req).search_query = DEFAULT_CATEGORY ∧
      (buildArxivQuery req).sortBy = "submittedDate") ∧
    (∀ q, req.query = some q → isBlankQuery req.query = false →
      (buildArxivQuery req).search_query = jsTrim q ∧
      (buildArxivQuery req).sortBy = "relevance") := by
  constructor
  · intro hb
    simp [buildArxivQuery, hb]
  · intro q hq hb
    rw [hq] at hb
    simp [buildArxivQuery, hq, hb]

/-- Witness for `arxiv_query_default_and_relevance` at an absent query and at
the query `"quantum"`. -/
theorem arxiv_query_default_and_relevance_witness :
    ((buildArxivQuery { query := none, start := none, max_results := none }).search_query =
        DEFAULT_CATEGORY ∧
      (buildArxivQuery { query := none, start := none, max_results := none }).sortBy =
        "submittedDate") ∧
    ((buildArxivQuery { query := some "quantum", start := none, max_results := none
        }).search_query = jsTrim "quantum" ∧
      (buildArxivQuery { query := some "quantum", start := none, max_results := none
        }).sortBy = "relevance") :=
  ⟨(arxiv_query_default_and_relevance { query := none, start := none, max_results := none }).1
      rfl,
    (arxiv_query_default_and_relevance
        { query := some "quantum", start := none, max_results := none }).2 "quantum" rfl
      (by decide)⟩

/-- C9: a summarization request with an empty document link is never issued by
the client (`generateAiSummary` returns before any network call when `pdfUrl`
is empty), and the summarize endpoint rejects a missing or empty `pdfUrl`
fast with a 400 error carrying a non-empty descriptive message instead of
forwarding anything to the generation API. -/
theorem empty_pdf_link_blocks_summarization :
    (∀ (isSummarizing : Option String) (papers : List Paper) (paperId paperTitle : String),
      generateAiSummaryRequest isSummarizing papers paperId "" paperTitle = none) ∧
    (∀ paperTitle : Option String,
      summarizePOST true none paperTitle =
        SummarizeOutcome.earlyResponse 400 "要約する論文のPDF URLが必要です。" ∧
      summarizePOST true (some "") paperTitle =
        SummarizeOutcome.earlyResponse 400 "要約する論文のPDF URLが必要です。") ∧
    "要約する論文のPDF URLが必要です。" ≠ "" := by
  refine ⟨fun isSummarizing papers paperId paperTitle => ?_, fun paperTitle => ⟨rfl, rfl⟩,
    by decide⟩
  simp [generateAiSummaryRequest]

/-- C7: adding a paper to the liked list is idempotent: adding the same paper
twice is the same as adding it once; if an entry with the paper's id is
already present the add is a no-op (the list is unchanged); and whenever the
list respects the store invariant (at most one entry per id), after the add
there is exactly one entry carrying the paper's id. -/
theorem addLikedPaper_idempotent (p : Paper) (L : List Paper) :
    addLikedPaper (addLikedPaper L p) p = addLikedPaper L p ∧
    ((∃ q ∈ L, q.id = p.id) → addLikedPaper L p = L) ∧
    ((L.map (fun q => q.id)).count p.id ≤ 1 →
      ((addLikedPaper L p).map (fun q => q.id)).count p.id = 1) := by
  by_cases h : (L.find? (fun q => q.id == p.id)).isSome
  · have hL : addLikedPaper L p = L := by unfold addLikedPaper; rw [if_pos h]
    obtain ⟨q, hqL, hq⟩ := List.find?_isSome.mp h
    have hmem : p.id ∈ L.map (fun r => r.id) :=
      List.mem_map.mpr ⟨q, hqL, beq_iff_eq.mp hq⟩
    refine ⟨by rw [hL, hL], fun _ => hL, fun hle => ?_⟩
    rw [hL]
    exact le_antisymm hle (List.count_pos_iff.mpr hmem)
  · have hL : addLikedPaper L p = L ++ [p] := by unfold addLikedPaper; rw [if_neg h]
    have hnone := List.find?_eq_none.mp (Option.not_isSome_iff_eq_none.mp h)
    have hnotmem : p.id ∉ L.map (fun r => r.id) := by
      intro hmem
      obtain ⟨q, hqL, hq⟩ := List.mem_map.mp hmem
      exact hnone q hqL (beq_iff_eq.mpr hq)
    refine ⟨?_, fun hex => ?_, fun _ => ?_⟩
    · have h2 : ((L ++ [p]).find? (fun q => q.id == p.id)).isSome :=
        List.find?_isSome.mpr ⟨p, List.mem_append_right L (List.mem_singleton.mpr rfl),
          beq_iff_eq.mpr rfl⟩
      rw [hL]
      unfold addLikedPaper
      rw [if_pos h2]
    · obtain ⟨q, hqL, hq⟩ := hex
      exact absurd (beq_iff_eq.mpr hq) (hnone q hqL)
    · rw [hL, List.map_append, List.count_append, List.count_eq_zero.mpr hnotmem]
      simp

/-- Witness for `addLikedPaper_idempotent` on the empty liked list. -/
theorem addLikedPaper_idempotent_witness :
    addLikedPaper (addLikedPaper [] (samplePaper "a")) (samplePaper "a") =
      addLikedPaper [] (samplePaper "a") ∧
    ((addLikedPaper [] (samplePaper "a")).map (fun q => q.id)).count (samplePaper "a").id = 1 :=
  ⟨(addLikedPaper_idempotent (samplePaper "a") []).1,
    (addLikedPaper_idempotent (samplePaper "a") []).2.2 (by decide)⟩

/-- C3 counterexample: a fetched page whose two entries share one identifier
is appended with both entries kept, so the result list has duplicate ids; and
even for a duplicate-free page the appended placeholder card makes the
resulting list length differ from `previous length + new identifiers`. -/
theorem updatePapers_dup_page_counterexample :
    (¬ (((completeFetch false [samplePaper "x", samplePaper "x"]
        (sampleFetchState [])).papers.map (fun p => p.id)).Nodup)) ∧
    ((completeFetch false [samplePaper "a"]
        (sampleFetchState [samplePaper "b"])).papers.length ≠ 1 + 1) := by decide

/-- Unfolding of the non-initial branch of the `setPapers` updater. -/
theorem updatePapers_false_eq (more : Bool) (term : String) (prev data : List Paper) :
    updatePapers false more term prev data =
      (if (!more ∧
          (prev.filter (fun p => !p.isEndOfFeedCard) ++
            data.filter (fun p => !((prev.filter (fun p => !p.isEndOfFeedCard)).map
              (fun p => p.id)).contains p.id)).length > 0 ∧
          !(prev.filter (fun p => !p.isEndOfFeedCard) ++
            data.filter (fun p => !((prev.filter (fun p => !p.isEndOfFeedCard)).map
              (fun p => p.id)).contains p.id)).any
            (fun p => p.id == END_OF_FEED_CARD_ID_PAGE)) then
        (prev.filter (fun p => !p.isEndOfFeedCard) ++
          data.filter (fun p => !((prev.filter (fun p => !p.isEndOfFeedCard)).map
            (fun p => p.id)).contains p.id)) ++ [endOfFeedCard term]
      else
        prev.filter (fun p => !p.isEndOfFeedCard) ++
          data.filter (fun p => !((prev.filter (fun p => !p.isEndOfFeedCard)).map
            (fun p => p.id)).contains p.id)) := rfl

/-- C3 (amended): provided the fetched page itself has pairwise-distinct
identifiers (and consists of real papers, as every page produced by the
route does), a non-initial append to a duplicate-free Result Set keeps all
identifiers pairwise distinct — including the placeholder card — and the
number of real (non-placeholder) entries grows by exactly the number of page
entries whose identifier was not already present. -/
theorem updatePapers_append_dedup (prev data : List Paper) (term : String) (more : Bool)
    (hprev : (prev.map (fun p => p.id)).Nodup)
    (hdata : (data.map (fun p => p.id)).Nodup)
    (hflag : ∀ p ∈ data, p.isEndOfFeedCard = false) :
    ((updatePapers false more term prev data).map (fun p => p.id)).Nodup ∧
    (realPapers (updatePapers false more term prev data)).length =
      (realPapers prev).length +
        (data.filter (fun p =>
          !((realPapers prev).map (fun p => p.id)).contains p.id)).length := by
  have hPRids : ((prev.filter (fun p => !p.isEndOfFeedCard)).map (fun p => p.id)).Nodup :=
    List.Nodup.sublist (List.Sublist.map _ (List.filter_sublist prev)) hprev
  have hNUids : ((data.filter (fun p =>
      !((prev.filter (fun p => !p.isEndOfFeedCard)).map (fun p => p.id)).contains p.id)).map
        (fun p => p.id)).Nodup :=
    List.Nodup.sublist (List.Sublist.map _ (List.filter_sublist data)) hdata
  have hdisj : ((prev.filter (fun p => !p.isEndOfFeedCard)).map (fun p => p.id)).Disjoint
      ((data.filter (fun p =>
        !((prev.filter (fun p => !p.isEndOfFeedCard)).map (fun p => p.id)).contains p.id)).map
          (fun p => p.id)) := by
    intro a ha hb
    obtain ⟨q, hq, rfl⟩ := List.mem_map.mp hb
    have hqf := (List.mem_filter.mp hq).2
    simp only [Bool.not_eq_eq_eq_not, Bool.not_true, List.contains_eq_any_beq] at hqf
    have : q.id ∈ (prev.filter (fun p => !p.isEndOfFeedCard)).map (fun p => p.id) := ha
    rw [List.any_eq_false] at hqf
    exact hqf q.id this (beq_iff_eq.mpr rfl)
  have harr : (((prev.filter (fun p => !p.isEndOfFeedCard) ++
      data.filter (fun p =>
        !((prev.filter (fun p => !p.isEndOfFeedCard)).map (fun p => p.id)).contains p.id)).map
          (fun p => p.id)).Nodup) := by
    rw [List.map_append, List.nodup_append]
    exact ⟨hPRids, hNUids, hdisj⟩
  constructor
  · rw [updatePapers_false_eq]
    split
    · rename_i hcond
      rw [List.map_append, List.nodup_append]
      refine ⟨harr, List.nodup_singleton _, ?_⟩
      intro a ha hb
      rw [List.map_singleton, List.mem_singleton] at hb
      obtain ⟨hc1, hc2, hc3⟩ := hcond
      rw [Bool.not_eq_eq_eq_not, Bool.not_true, List.any_eq_false] at hc3
      obtain ⟨q, hq, rfl⟩ := List.mem_map.mp ha
      exact hc3 q hq (by rw [hb]; exact beq_iff_eq.mpr rfl)
    · exact harr
  · have hfilterNU : (data.filter (fun p =>
        !((prev.filter (fun p => !p.isEndOfFeedCard)).map (fun p => p.id)).contains p.id)).filter
          (fun p => !p.isEndOfFeedCard) =
        data.filter (fun p =>
          !((prev.filter (fun p => !p.isEndOfFeedCard)).map (fun p => p.id)).contains p.id) :=
      List.filter_eq_self.mpr (fun a ha => by
        rw [hflag a (List.mem_filter.mp ha).1]; rfl)
    have hfilterPR : (prev.filter (fun p => !p.isEndOfFeedCard)).filter
        (fun p => !p.isEndOfFeedCard) = prev.filter (fun p => !p.isEndOfFeedCard) :=
      List.filter_eq_self.mpr (fun a ha => (List.mem_filter.mp ha).2)
    rw [updatePapers_false_eq]
    split
    · rename_i hcond
      simp only [realPapers, List.filter_append, hfilterPR, hfilterNU, List.length_append]
      have hend : [endOfFeedCard term].filter (fun p => !p.isEndOfFeedCard) = [] := rfl
      rw [hend]
      simp
    · simp only [realPapers, List.filter_append, hfilterPR, hfilterNU, List.length_append]

/-- Witness for `updatePapers_append_dedup`: appending a one-paper page to a
one-paper Result Set. -/
theorem updatePapers_append_dedup_witness :
    ((updatePapers false false "" [samplePaper "b"] [samplePaper "a"]).map
        (fun p => p.id)).Nodup ∧
    (realPapers (updatePapers false false "" [samplePaper "b"] [samplePaper "a"])).length =
      (realPapers [samplePaper "b"]).length +
        (([samplePaper "a"]).filter (fun p =>
          !((realPapers [samplePaper "b"]).map (fun p => p.id)).contains p.id)).length :=
  updatePapers_append_dedup [samplePaper "b"] [samplePaper "a"] "" false (by decide)
    (by decide) (by decide)

/-- A `filterMap` over a list containing an element the function drops is
strictly shorter than the list. -/
theorem length_filterMap_lt {α β : Type} (f : α → Option β) (l : List α) (a : α)
    (ha : a ∈ l) (hfa : f a = none) : (l.filterMap f).length < l.length := by
  induction l with
  | nil => cases ha
  | cons b l ih =>
    rcases List.mem_cons.mp ha with rfl | hm
    · simp only [List.filterMap_cons, hfa, List.length_cons]
      exact Nat.lt_succ_of_le (List.length_filterMap_le f l)
    · cases hfb : f b with
      | none =>
        simp only [List.filterMap_cons, hfb, List.length_cons]
        exact Nat.lt_succ_of_le (le_of_lt (ih hm))
      | some c =>
        simp only [List.filterMap_cons, hfb, List.length_cons]
        exact Nat.succ_lt_succ (ih hm)

/-- C10: an upstream feed entry from which no arXiv identifier can be
extracted (its id URL has no `/abs/<id>` match) is silently dropped by the
papers route, so the returned page is strictly shorter than the entry list;
hence a full upstream page (10 entries) containing such an entry yields a
response of fewer than 10 papers, which the client's fetch completion
interprets as the exhaustion signal (`hasMorePapers = false`). -/
theorem unparsable_entries_dropped :
    (∀ e : ArxivEntry, (∀ u, e.id = some u → extractArxivId u = none) → parseEntry e = none) ∧
    (∀ entries : List (Option ArxivEntry),
      (papersOfEntries entries).length ≤ entries.length) ∧
    (∀ (entries : List (Option ArxivEntry)) (e : ArxivEntry),
      some e ∈ entries → parseEntry e = none →
      (papersOfEntries entries).length < entries.length) ∧
    (∀ (s : FetchState) (entries : List (Option ArxivEntry)) (e : ArxivEntry),
      entries.length = MAX_RESULTS_PER_FETCH_PAGE →
      some e ∈ entries → (∀ u, e.id = some u → extractArxivId u = none) →
      (completeFetch false ((papersOfEntries entries).map paperOfSummary)
        s).hasMorePapers = false) := by
  have hdropAll : ∀ e : ArxivEntry,
      (∀ u, e.id = some u → extractArxivId u = none) → parseEntry e = none := by
    intro e h
    cases hid : e.id with
    | none => simp [parseEntry, hid]
    | some u =>
      have hex := h u hid
      by_cases hu : u = "" <;> simp [parseEntry, hid, hu, hex]
  have hstrict : ∀ (entries : List (Option ArxivEntry)) (e : ArxivEntry),
      some e ∈ entries → parseEntry e = none →
      (papersOfEntries entries).length < entries.length := by
    intro entries e hmem hnone
    exact length_filterMap_lt (fun x => x.bind parseEntry) entries (some e) hmem hnone
  refine ⟨hdropAll, fun entries => List.length_filterMap_le _ _, hstrict, ?_⟩
  intro s entries e hlen hmem hdrop
  have hlt := hstrict entries e hmem (hdropAll e hdrop)
  rw [hlen] at hlt
  have h10 : (((papersOfEntries entries).map paperOfSummary).length ==
      MAX_RESULTS_PER_FETCH_PAGE) = false := by
    rw [List.length_map, beq_eq_false_iff_ne]
    simp only [MAX_RESULTS_PER_FETCH_PAGE] at hlt ⊢
    omega
  simp [completeFetch, List.length_map]
  omega

/-- Witness for `unparsable_entries_dropped`: a full page of 10 entries, one
of which has an id URL without an `/abs/` segment. -/
theorem unparsable_entries_dropped_witness :
    (completeFetch false ((papersOfEntries sampleEntries).map paperOfSummary)
      (sampleFetchState [])).hasMorePapers = false :=
  unparsable_entries_dropped.2.2.2 (sampleFetchState []) sampleEntries badArxivEntry
    (by decide) (by decide) (fun u hu => by cases hu; decide)
